import Mathlib

/-!
Shallow embedding of the vocabulary-card enrichment core
(`src/vocab_service.rs`): the translation gateway with per-mirror
retry/backoff and mirror fallback, the dictionary and synonym fetchers,
the synonym merge, and the card-building orchestrator.  Network effects
are modelled by explicit outcome oracles: for each request the oracle
says what the remote service answered.
-/

namespace Notaforge

/-- Models Rust `s.is_empty()` on a `String`. -/
def strIsEmpty (s : String) : Bool := s.data.isEmpty

/-- Models Rust `s.trim().is_empty()`: every character is whitespace. -/
def isBlank (s : String) : Bool := s.data.all Char.isWhitespace

/-- Models Rust `hay.contains(needle)` (substring containment). -/
def strContains (hay needle : String) : Bool := decide (needle.data <:+: hay.data)

/-- Models Rust `[T]::join(sep)` on a list of strings. -/
def joinWith (sep : String) : List String → String
  | [] => ""
  | [x] => x
  | x :: y :: ys => x ++ sep ++ joinWith sep (y :: ys)

/-- Outcome of one HTTP GET against a translation mirror, as observed by
`translate_with_base`: transport failure, HTTP 429, another non-2xx
status, a 2xx body that fails to parse, or a parsed translation. -/
inductive LingvaOutcome where
  | transport
  | rateLimited
  | statusErr
  | parseErr
  | success (t : String)
deriving DecidableEq

/-- Error kinds that `translate_with_base` can propagate to its caller. -/
inductive TErr where
  | transport
  | status
  | parse
deriving DecidableEq

deriving instance DecidableEq for Except

/-- Observable behaviour of one `translate_with_base` call: its returned
`Result`, how many requests it issued, and the list of sleeps performed
(in milliseconds, in order). -/
structure MirrorRun where
  result : Except TErr String
  requests : Nat
  sleeps : List Nat
deriving DecidableEq

/-- Models `(delay as f64 * 1.5).round() as u64`: growth by 1.5, rounded
half away from zero. -/
def growDelay (d : Nat) : Nat := (3 * d + 1) / 2

/-- The built-in default mirror list (`DEFAULT_TRANSLATE_BASES`). -/
def DEFAULT_TRANSLATE_BASES : List String :=
  ["https://lingva.ml/api/v1",
   "https://lingva.garudalinux.org/api/v1",
   "https://translate.plausible.stream/api/v1"]

/-- The retry loop of `translate_with_base`.  `outcomes n` is what the
mirror answers to the `n`-th request; `remaining` is `retries - attempt`
(so `attempt < retries` iff `remaining > 0`); `delay` is the current
backoff.  On 429 past the retry budget the mirror run gives up with
`Ok("")`; on other errors past the budget it propagates the error;
a 2xx parse failure propagates immediately (no retry). -/
def lingvaLoop (outcomes : Nat → LingvaOutcome) (idx remaining delay : Nat) :
    MirrorRun :=
  match outcomes idx, remaining with
  | .success t, _ => ⟨.ok t, 1, []⟩
  | .parseErr, _ => ⟨.error .parse, 1, []⟩
  | .rateLimited, 0 => ⟨.ok "", 1, []⟩
  | .rateLimited, r + 1 =>
      let rest := lingvaLoop outcomes (idx + 1) r (growDelay delay)
      ⟨rest.result, rest.requests + 1, delay :: rest.sleeps⟩
  | .statusErr, 0 => ⟨.error .status, 1, []⟩
  | .statusErr, r + 1 =>
      let rest := lingvaLoop outcomes (idx + 1) r (growDelay delay)
      ⟨rest.result, rest.requests + 1, delay :: rest.sleeps⟩
  | .transport, 0 => ⟨.error .transport, 1, []⟩
  | .transport, r + 1 =>
      let rest := lingvaLoop outcomes (idx + 1) r (growDelay delay)
      ⟨rest.result, rest.requests + 1, delay :: rest.sleeps⟩

/-- Embedding of `translate_with_base`: blank text short-circuits to
`Ok("")`; otherwise the retry loop starts at attempt 0 with delay
`max(backoff_ms, 200)`. -/
def translate_with_base (text _src _tgt _base : String)
    (outcomes : Nat → LingvaOutcome) (retries backoff : Nat) : MirrorRun :=
  if isBlank text then ⟨.ok "", 0, []⟩
  else lingvaLoop outcomes 0 retries (max backoff 200)

/-- Observable behaviour of one `translate_text` call: its returned
`Result` and the total number of requests issued across all mirrors. -/
structure GatewayRun where
  result : Except TErr String
  requests : Nat
deriving DecidableEq

/-- The mirror loop of `translate_text`: mirrors are tried strictly in
order; a blank-or-error mirror run falls through to the next mirror; the
first non-blank result is returned; an exhausted list yields `Ok("")`. -/
def translateLoop (text src tgt : String) (env : String → Nat → LingvaOutcome)
    (retries backoff : Nat) : List String → GatewayRun
  | [] => ⟨.ok "", 0⟩
  | base :: rest =>
      let run := translate_with_base text src tgt base (env base) retries backoff
      match run.result with
      | .ok r =>
          if isBlank r then
            let g := translateLoop text src tgt env retries backoff rest
            ⟨g.result, run.requests + g.requests⟩
          else ⟨.ok r, run.requests⟩
      | .error _ =>
          let g := translateLoop text src tgt env retries backoff rest
          ⟨g.result, run.requests + g.requests⟩

/-- Mirror-list resolution shared by `translate_text` and
`build_vocabulary_card`: the caller-supplied list if non-empty, else the
built-in default list. -/
def effectiveBases (bases : List String) : List String :=
  if bases.isEmpty then DEFAULT_TRANSLATE_BASES else bases

/-- Embedding of `translate_text`: blank text returns `Ok("")` with no
request; otherwise the effective mirror list is tried in order. -/
def translate_text (text src tgt : String) (bases : List String)
    (env : String → Nat → LingvaOutcome) (retries backoff : Nat) : GatewayRun :=
  if isBlank text then ⟨.ok "", 0⟩
  else translateLoop text src tgt env retries backoff (effectiveBases bases)

/-- A mirror run that produces no usable text: a blank `Ok` or any error. -/
def mirrorExhausted (r : MirrorRun) : Bool :=
  match r.result with
  | .ok s => isBlank s
  | .error _ => true

/-- One record of a meaning's `definitions` list (serde `Definition`):
required definition text, optional example, optional synonym list. -/
structure Definition where
  definition : String
  example' : Option String
  synonyms : List String
deriving DecidableEq

/-- One record of an entry's `meanings` list (serde `Meaning`). -/
structure Meaning where
  part_of_speech : Option String
  definitions : List Definition
  synonyms : List String
deriving DecidableEq

/-- One record of an entry's `phonetics` list (serde `Phonetic`). -/
structure Phonetic where
  text : Option String
deriving DecidableEq

/-- One dictionary entry (serde `DictionaryEntry`). -/
structure DictionaryEntry where
  phonetic : Option String
  phonetics : List Phonetic
  meanings : List Meaning
deriving DecidableEq

/-- The distilled dictionary data (`DictionaryData`); its `Default` is
all-`none` fields and an empty synonym list. -/
structure DictionaryData where
  pronunciation : Option String
  part_of_speech : Option String
  definition : Option String
  example' : Option String
  synonyms : List String
deriving DecidableEq, Inhabited

/-- Failure kinds of the dictionary and synonym fetchers. -/
inductive DictErr where
  | requestFail
  | statusFail
  | parseFail
  | noEntry (term : String)
  | noDefinition (term : String)
deriving DecidableEq

/-- Sorted-set insert, modelling `BTreeSet<String>::insert`. -/
def btreeInsert (x : String) : List String → List String
  | [] => [x]
  | y :: ys =>
      if x.data < y.data then x :: y :: ys
      else if x = y then y :: ys
      else y :: btreeInsert x ys

/-- Collecting a list into a `BTreeSet<String>` and iterating it back
out: a sorted, deduplicated list. -/
def btreeOfList (l : List String) : List String :=
  l.foldl (fun s x => btreeInsert x s) []

/-- Embedding of `collect_synonyms`: union of the meaning-level synonym
list with every definition-level synonym list, via a `BTreeSet`. -/
def collect_synonyms (definitions : List Definition) (base_synonyms : List String) :
    List String :=
  btreeOfList (base_synonyms ++ definitions.flatMap (fun d => d.synonyms))

/-- The synonym merge performed by `build_vocabulary_card` (lines 33-36):
dictionary synonyms are collected into a `BTreeSet`, the synonym-service
synonyms are inserted, and the set is iterated back out sorted. -/
def mergeSynonyms (a b : List String) : List String :=
  btreeOfList (a ++ b)

/-- Embedding of `fetch_dictionary_entry` after the network layer: `net`
is the transport/status/parse outcome carrying the parsed entry list. -/
def fetch_dictionary_entry (term : String)
    (net : Except DictErr (List DictionaryEntry)) : Except DictErr DictionaryData :=
  match net with
  | .error e => .error e
  | .ok entries =>
      match entries with
      | [] => .error (.noEntry term)
      | entry :: _ =>
          let pronunciation :=
            entry.phonetic.orElse (fun _ => entry.phonetics.findSome? (fun p => p.text))
          match entry.meanings.find? (fun m => !m.definitions.isEmpty) with
          | none => .error (.noDefinition term)
          | some meaning =>
              let definitions := meaning.definitions
              let definition := definitions.findSome?
                (fun d => if strIsEmpty d.definition then none else some d.definition)
              let ex := definitions.findSome? (fun d => d.example')
              let synonyms := collect_synonyms definitions meaning.synonyms
              .ok ⟨pronunciation, meaning.part_of_speech, definition, ex, synonyms⟩

/-- One response record of the synonym service (serde `DatamuseEntry`). -/
structure DatamuseEntry where
  word : String
deriving DecidableEq

/-- Embedding of `fetch_datamuse_synonyms` after the network layer. -/
def fetch_datamuse_synonyms (net : Except DictErr (List DatamuseEntry)) :
    Except DictErr (List String) :=
  match net with
  | .error e => .error e
  | .ok l => .ok (l.map (fun e => e.word))

/-- The example-sentence pair of the card (`ExampleSentence`). -/
structure ExampleSentence where
  sentence : String
  highlight : String
deriving DecidableEq

/-- The assembled card (`VocabularyCard`). -/
structure VocabularyCard where
  term : String
  pronunciation : String
  part_of_speech : String
  exampleSentence : ExampleSentence
  translation_heading : String
  translation_synonyms : String
  translation_usage : String
  extra_tags : List String
deriving DecidableEq

/-- The fallback applied to each translation result in
`build_vocabulary_card`: keep a non-blank `Ok` value, otherwise use the
fallback text. -/
def translateOrFallback (res : Except TErr String) (fallback : String) : String :=
  match res with
  | .ok v => if isBlank v then fallback else v
  | .error _ => fallback

/-- The per-synonym translated item of the card: the synonym's
translation, or the synonym itself when that is blank or failed. -/
def synonymItem (src tgt : String) (bases : List String)
    (env : String → String → Nat → LingvaOutcome) (retries backoff : Nat)
    (s : String) : String :=
  translateOrFallback (translate_text s src tgt bases (env s) retries backoff).result s

/-- Models `dictionary_res.unwrap_or_default()`. -/
def dictionaryOf (dres : Except DictErr DictionaryData) : DictionaryData :=
  match dres with
  | .ok d => d
  | .error _ => default

/-- Models `datamuse_res.unwrap_or_default()`. -/
def datamuseOf (sres : Except DictErr (List String)) : List String :=
  match sres with
  | .ok l => l
  | .error _ => []

/-- The definition text used by the card: the dictionary definition or
the generated placeholder. -/
def definitionTextOf (term : String) (dres : Except DictErr DictionaryData) : String :=
  (dictionaryOf dres).definition.getD ("No definition found for " ++ term ++ ".")

/-- The example sentence used by the card: the dictionary example or the
generated placeholder. -/
def exampleSentenceOf (term : String) (dres : Except DictErr DictionaryData) : String :=
  (dictionaryOf dres).example'.getD ("This sentence uses the word " ++ term ++ ".")

/-- The pure body of `build_vocabulary_card`: dictionary and synonym
fetch outcomes are passed in, and `env text base n` is what mirror
`base` answers to the `n`-th request when translating `text`.  The
per-synonym translations are issued by `join_all` over the synonym list
and re-paired with the synonyms by position (`zip`). -/
def build_card (term src tgt : String) (translate_bases : List String)
    (retries backoff : Nat)
    (dictionary_res : Except DictErr DictionaryData)
    (datamuse_res : Except DictErr (List String))
    (env : String → String → Nat → LingvaOutcome) : VocabularyCard :=
  let dictionary := dictionaryOf dictionary_res
  let datamuse_synonyms := datamuseOf datamuse_res
  let synonyms := mergeSynonyms dictionary.synonyms datamuse_synonyms
  let part_of_speech := dictionary.part_of_speech.getD ""
  let pronunciation := dictionary.pronunciation.getD ""
  let base_candidates := effectiveBases translate_bases
  let synonyms_joined := joinWith ", " synonyms
  let translated_synonyms :=
    if strIsEmpty synonyms_joined then ""
    else
      let results := synonyms.map
        (fun s => translate_text s src tgt base_candidates (env s) retries backoff)
      joinWith ", " ((synonyms.zip results).map
        (fun p => translateOrFallback p.2.result p.1))
  let definition_text := definitionTextOf term dictionary_res
  let translation := translateOrFallback
    (translate_text term src tgt base_candidates (env term) retries backoff).result term
  let translated_usage := translateOrFallback
    (translate_text definition_text src tgt base_candidates (env definition_text)
      retries backoff).result definition_text
  let example_sentence := exampleSentenceOf term dictionary_res
  let highlight := if strContains example_sentence term then term else ""
  { term := term
    pronunciation := pronunciation
    part_of_speech := part_of_speech
    exampleSentence := ⟨example_sentence, highlight⟩
    translation_heading := translation
    translation_synonyms := translated_synonyms
    translation_usage := translated_usage
    extra_tags := [src, tgt, "auto-generated"] }

/-- Embedding of `build_vocabulary_card`: the body has no fallible step,
so it always wraps the assembled card in `Ok`. -/
def build_vocabulary_card (term src tgt : String) (translate_bases : List String)
    (retries backoff : Nat)
    (dictionary_res : Except DictErr DictionaryData)
    (datamuse_res : Except DictErr (List String))
    (env : String → String → Nat → LingvaOutcome) : Except DictErr VocabularyCard :=
  .ok (build_card term src tgt translate_bases retries backoff
        dictionary_res datamuse_res env)

/-- Meaning selection as the specification words it: the first meaning
that has at least one definition with non-empty text.  This is the
foil the code's selection is compared against; the code itself selects
the first meaning whose definitions list is non-empty. -/
def specSelectMeaning (meanings : List Meaning) : Option Meaning :=
  meanings.find? (fun m => m.definitions.any (fun d => !strIsEmpty d.definition))

/-- A meaning whose only definition has empty text. -/
def ceMeaningEmptyText : Meaning := ⟨none, [⟨"", none, []⟩], []⟩

/-- A meaning whose only definition has the text "x". -/
def ceMeaningRealText : Meaning := ⟨none, [⟨"x", none, []⟩], []⟩

/-- An entry whose first meaning has only an empty-text definition and
whose second meaning has a real definition. -/
def ceEntry : DictionaryEntry := ⟨none, [], [ceMeaningEmptyText, ceMeaningRealText]⟩

end Notaforge

namespace Notaforge

/-! ## Helper lemmas -/

theorem translateLoop_result_ok (text src tgt : String)
    (env : String → Nat → LingvaOutcome) (retries backoff : Nat) :
    ∀ l : List String,
      ∃ s, (translateLoop text src tgt env retries backoff l).result = Except.ok s := by
  intro l
  induction l with
  | nil => exact ⟨"", rfl⟩
  | cons base rest ih =>
      simp only [translateLoop]
      cases hres : (translate_with_base text src tgt base (env base) retries backoff).result with
      | ok r =>
          by_cases hb : isBlank r
          · simpa [hres, hb] using ih
          · exact ⟨r, by simp [hres, hb]⟩
      | error e => simpa [hres] using ih

theorem translateLoop_exhausted (text src tgt : String)
    (env : String → Nat → LingvaOutcome) (retries backoff : Nat) :
    ∀ l : List String,
      (∀ b ∈ l, mirrorExhausted
          (translate_with_base text src tgt b (env b) retries backoff) = true) →
      (translateLoop text src tgt env retries backoff l).result = Except.ok "" := by
  intro l
  induction l with
  | nil => intro _; rfl
  | cons base rest ih =>
      intro h
      have hbase := h base (List.mem_cons_self base rest)
      have hrest : ∀ b ∈ rest, mirrorExhausted
          (translate_with_base text src tgt b (env b) retries backoff) = true :=
        fun b hb => h b (List.mem_cons_of_mem base hb)
      simp only [translateLoop]
      cases hres : (translate_with_base text src tgt base (env base) retries backoff).result with
      | ok r =>
          have hb : isBlank r = true := by
            simpa [mirrorExhausted, hres] using hbase
          simpa [hres, hb] using ih hrest
      | error e => simpa [hres] using ih hrest

theorem translateLoop_append_exhausted (text src tgt : String)
    (env : String → Nat → LingvaOutcome) (retries backoff : Nat) :
    ∀ pre l : List String,
      (∀ b ∈ pre, mirrorExhausted
          (translate_with_base text src tgt b (env b) retries backoff) = true) →
      (translateLoop text src tgt env retries backoff (pre ++ l)).result
        = (translateLoop text src tgt env retries backoff l).result := by
  intro pre
  induction pre with
  | nil => intro l _; rfl
  | cons base rest ih =>
      intro l h
      have hbase := h base (List.mem_cons_self base rest)
      have hrest : ∀ b ∈ rest, mirrorExhausted
          (translate_with_base text src tgt b (env b) retries backoff) = true :=
        fun b hb => h b (List.mem_cons_of_mem base hb)
      simp only [List.cons_append, translateLoop]
      cases hres : (translate_with_base text src tgt base (env base) retries backoff).result with
      | ok r =>
          have hb : isBlank r = true := by
            simpa [mirrorExhausted, hres] using hbase
          simpa [hres, hb] using ih l hrest
      | error e => simpa [hres] using ih l hrest

/-! ## Claims -/

/-- C1: for every input text, languages, mirror list, retry count,
backoff, and every combination of mirror behaviours, `translate_text`
returns `Ok`; and when every effective mirror is exhausted without a
non-blank result, it returns `Ok("")`. -/
theorem translate_text_total (text src tgt : String) (bases : List String)
    (env : String → Nat → LingvaOutcome) (retries backoff : Nat) :
    (∃ s, (translate_text text src tgt bases env retries backoff).result = Except.ok s) ∧
    ((∀ b ∈ effectiveBases bases,
        mirrorExhausted (translate_with_base text src tgt b (env b) retries backoff) = true) →
      (translate_text text src tgt bases env retries backoff).result = Except.ok "") := by
  unfold translate_text
  by_cases hb : isBlank text
  · exact ⟨⟨"", by simp [hb]⟩, fun _ => by simp [hb]⟩
  · refine ⟨?_, ?_⟩
    · simpa [hb] using
        translateLoop_result_ok text src tgt env retries backoff (effectiveBases bases)
    · intro h
      simpa [hb] using
        translateLoop_exhausted text src tgt env retries backoff (effectiveBases bases) h

/-- C1 witness: with the default mirror list and every request failing
at the transport level, `translate_text` returns `Ok("")`. -/
theorem translate_text_total_witness :
    (translate_text "hi" "en" "es" [] (fun _ _ => .transport) 0 0).result
      = Except.ok "" :=
  (translate_text_total "hi" "en" "es" [] (fun _ _ => .transport) 0 0).2 (by decide)

/-- C2: `build_vocabulary_card` always returns `Ok` with a card, and a
failing dictionary or synonym fetch is substituted with the all-default
record / empty list: the build on two failures equals the build on the
default substitutes. -/
theorem build_vocabulary_card_total (term src tgt : String) (bases : List String)
    (retries backoff : Nat) (dres : Except DictErr DictionaryData)
    (sres : Except DictErr (List String))
    (env : String → String → Nat → LingvaOutcome) :
    build_vocabulary_card term src tgt bases retries backoff dres sres env
      = Except.ok (build_card term src tgt bases retries backoff dres sres env) ∧
    (∀ e₁ e₂ : DictErr,
      build_vocabulary_card term src tgt bases retries backoff
          (Except.error e₁) (Except.error e₂) env
        = build_vocabulary_card term src tgt bases retries backoff
            (Except.ok default) (Except.ok []) env) :=
  ⟨rfl, fun _ _ => rfl⟩

/-- C4: against a mirror answering HTTP 429 to every request, with
`maxRetries = 2`, the per-mirror procedure issues exactly 3 requests,
sleeps `max(backoff, 200)` then that grown by 1.5 (rounded), and gives
up with `Ok("")` rather than an error. -/
theorem translate_with_base_rate_limited (text src tgt base : String)
    (env : Nat → LingvaOutcome) (backoff : Nat)
    (htext : isBlank text = false) (henv : ∀ n, env n = .rateLimited) :
    translate_with_base text src tgt base env 2 backoff
      = ⟨Except.ok "", 3, [max backoff 200, growDelay (max backoff 200)]⟩ := by
  simp [translate_with_base, htext, lingvaLoop, henv]

/-- C4 witness: with backoff 500 the three attempts sleep 500ms then
750ms and give up with `Ok("")`. -/
theorem translate_with_base_rate_limited_witness :
    translate_with_base "hello" "en" "es" "https://lingva.ml/api/v1"
        (fun _ => .rateLimited) 2 500
      = ⟨Except.ok "", 3, [500, 750]⟩ := by
  have h := translate_with_base_rate_limited "hello" "en" "es"
    "https://lingva.ml/api/v1" (fun _ => .rateLimited) 500 (by decide) (fun _ => rfl)
  simpa using h

/-- C6: an empty caller-supplied mirror list resolves to the fixed
built-in default list of 3 mirrors in its fixed order, a non-empty list
is used as given, and mirrors are tried strictly sequentially with the
first non-blank result returned. -/
theorem translate_text_mirror_order (text src tgt : String) (bases : List String)
    (env : String → Nat → LingvaOutcome) (retries backoff : Nat) :
    (bases = [] → effectiveBases bases =
      ["https://lingva.ml/api/v1",
       "https://lingva.garudalinux.org/api/v1",
       "https://translate.plausible.stream/api/v1"]) ∧
    (bases ≠ [] → effectiveBases bases = bases) ∧
    (∀ pre b post r, effectiveBases bases = pre ++ b :: post →
      (∀ b' ∈ pre, mirrorExhausted
          (translate_with_base text src tgt b' (env b') retries backoff) = true) →
      (translate_with_base text src tgt b (env b) retries backoff).result = Except.ok r →
      isBlank r = false → isBlank text = false →
      (translate_text text src tgt bases env retries backoff).result = Except.ok r) := by
  refine ⟨?_, ?_, ?_⟩
  · intro h; simp [effectiveBases, h, DEFAULT_TRANSLATE_BASES]
  · intro h; simp [effectiveBases, h]
  · intro pre b post r heff hpre hok hnb htext
    unfold translate_text
    rw [if_neg (by simp [htext])]
    rw [heff, translateLoop_append_exhausted text src tgt env retries backoff pre _ hpre]
    simp only [translateLoop]
    simp [hok, hnb]

/-- C6 witness: with an empty caller list, the default list is used and
the first mirror's successful translation is returned. -/
theorem translate_text_mirror_order_witness :
    effectiveBases [] =
      ["https://lingva.ml/api/v1",
       "https://lingva.garudalinux.org/api/v1",
       "https://translate.plausible.stream/api/v1"] ∧
    (translate_text "happy" "en" "es" []
        (fun _ _ => .success "feliz") 0 0).result = Except.ok "feliz" :=
  ⟨(translate_text_mirror_order "happy" "en" "es" []
      (fun _ _ => .success "feliz") 0 0).1 rfl,
   (translate_text_mirror_order "happy" "en" "es" []
      (fun _ _ => .success "feliz") 0 0).2.2
     [] "https://lingva.ml/api/v1"
     ["https://lingva.garudalinux.org/api/v1",
      "https://translate.plausible.stream/api/v1"] "feliz"
     (by decide) (by simp) (by decide) (by decide) (by decide)⟩

theorem strLt_data (x y : String) : x.data < y.data ↔ x < y :=
  Iff.symm String.lt_iff_toList_lt

theorem btreeInsert_mem (x z : String) :
    ∀ l : List String, z ∈ btreeInsert x l ↔ z = x ∨ z ∈ l := by
  intro l
  induction l with
  | nil => simp [btreeInsert]
  | cons y ys ih =>
      simp only [btreeInsert]
      by_cases h1 : x.data < y.data
      · simp [h1]
      · by_cases h2 : x = y
        · subst h2; simp [h1]
        · simp only [h1, h2, if_false, List.mem_cons, ih]; tauto

theorem btreeInsert_sorted (x : String) :
    ∀ l : List String, l.Sorted (· < ·) → (btreeInsert x l).Sorted (· < ·) := by
  intro l
  induction l with
  | nil => intro _; simp [btreeInsert]
  | cons y ys ih =>
      intro h
      rw [List.sorted_cons] at h
      obtain ⟨hy, hys⟩ := h
      simp only [btreeInsert]
      by_cases h1 : x.data < y.data
      · rw [if_pos h1, List.sorted_cons]
        refine ⟨?_, List.sorted_cons.mpr ⟨hy, hys⟩⟩
        intro b hb
        have h1' : x < y := (strLt_data x y).mp h1
        rcases List.mem_cons.mp hb with hb | hb
        · exact hb ▸ h1'
        · exact lt_trans h1' (hy b hb)
      · by_cases h2 : x = y
        · rw [if_neg h1, if_pos h2]
          exact List.sorted_cons.mpr ⟨hy, hys⟩
        · rw [if_neg h1, if_neg h2, List.sorted_cons]
          refine ⟨?_, ih hys⟩
          intro b hb
          rcases (btreeInsert_mem x b ys).mp hb with rfl | hb
          · rcases lt_trichotomy b y with h | h | h
            · exact absurd ((strLt_data b y).mpr h) h1
            · exact absurd h h2
            · exact h
          · exact hy b hb

theorem btreeFold_sorted :
    ∀ l acc : List String, acc.Sorted (· < ·) →
      (l.foldl (fun s x => btreeInsert x s) acc).Sorted (· < ·) := by
  intro l
  induction l with
  | nil => intro acc h; exact h
  | cons x xs ih =>
      intro acc h
      simpa [List.foldl] using ih (btreeInsert x acc) (btreeInsert_sorted x acc h)

theorem btreeFold_mem :
    ∀ (l acc : List String) (z : String),
      z ∈ l.foldl (fun s x => btreeInsert x s) acc ↔ z ∈ l ∨ z ∈ acc := by
  intro l
  induction l with
  | nil => intro acc z; simp
  | cons x xs ih =>
      intro acc z
      simp only [List.foldl, List.mem_cons]
      rw [ih (btreeInsert x acc) z, btreeInsert_mem]
      tauto

theorem btreeOfList_sorted (l : List String) : (btreeOfList l).Sorted (· < ·) :=
  btreeFold_sorted l [] (by simp)

theorem btreeOfList_mem (l : List String) (z : String) :
    z ∈ btreeOfList l ↔ z ∈ l := by
  simpa using btreeFold_mem l [] z

theorem btreeOfList_nodup (l : List String) : (btreeOfList l).Nodup :=
  (btreeOfList_sorted l).nodup

/-- C3: for all synonym lists `a` and `b`, the merge is sorted (strict
lexicographic order), duplicate-free, its members are exactly the union
of the members of `a` and `b`, and it is symmetric in its arguments. -/
theorem mergeSynonyms_spec (a b : List String) :
    (mergeSynonyms a b).Sorted (· < ·) ∧
    (mergeSynonyms a b).Nodup ∧
    (∀ x, x ∈ mergeSynonyms a b ↔ x ∈ a ∨ x ∈ b) ∧
    mergeSynonyms a b = mergeSynonyms b a := by
  haveI : IsAntisymm String (· < ·) := ⟨fun _ _ h1 h2 => absurd h2 (lt_asymm h1)⟩
  refine ⟨btreeOfList_sorted _, btreeOfList_nodup _, ?_, ?_⟩
  · intro x
    simpa using btreeOfList_mem (a ++ b) x
  · have hperm : List.Perm (mergeSynonyms a b) (mergeSynonyms b a) := by
      refine (List.perm_ext_iff_of_nodup (btreeOfList_nodup _) (btreeOfList_nodup _)).mpr
        (fun z => ?_)
      simp only [mergeSynonyms, btreeOfList_mem, List.mem_append]
      tauto
    exact List.eq_of_perm_of_sorted hperm (btreeOfList_sorted _) (btreeOfList_sorted _)

theorem strIsEmpty_iff (s : String) : strIsEmpty s = true ↔ s = "" := by
  cases s with
  | mk cs =>
      cases cs with
      | nil => simp [strIsEmpty]
      | cons c cs' =>
          simp only [strIsEmpty, List.isEmpty, Bool.false_eq_true, false_iff]
          intro h
          have : (String.mk (c :: cs')).data = ("" : String).data := by rw [h]
          simp at this

theorem build_card_translation_heading (term src tgt : String) (bases : List String)
    (retries backoff : Nat) (dres : Except DictErr DictionaryData)
    (sres : Except DictErr (List String))
    (env : String → String → Nat → LingvaOutcome) :
    (build_card term src tgt bases retries backoff dres sres env).translation_heading
      = translateOrFallback
          (translate_text term src tgt (effectiveBases bases) (env term)
            retries backoff).result term := rfl

theorem build_card_translation_usage (term src tgt : String) (bases : List String)
    (retries backoff : Nat) (dres : Except DictErr DictionaryData)
    (sres : Except DictErr (List String))
    (env : String → String → Nat → LingvaOutcome) :
    (build_card term src tgt bases retries backoff dres sres env).translation_usage
      = translateOrFallback
          (translate_text (definitionTextOf term dres) src tgt (effectiveBases bases)
            (env (definitionTextOf term dres)) retries backoff).result
          (definitionTextOf term dres) := rfl

theorem build_card_example_sentence (term src tgt : String) (bases : List String)
    (retries backoff : Nat) (dres : Except DictErr DictionaryData)
    (sres : Except DictErr (List String))
    (env : String → String → Nat → LingvaOutcome) :
    (build_card term src tgt bases retries backoff dres sres env).exampleSentence
      = ⟨exampleSentenceOf term dres,
         if strContains (exampleSentenceOf term dres) term then term else ""⟩ := rfl

theorem build_card_translation_synonyms (term src tgt : String) (bases : List String)
    (retries backoff : Nat) (dres : Except DictErr DictionaryData)
    (sres : Except DictErr (List String))
    (env : String → String → Nat → LingvaOutcome) :
    (build_card term src tgt bases retries backoff dres sres env).translation_synonyms
      = (if strIsEmpty (joinWith ", "
            (mergeSynonyms (dictionaryOf dres).synonyms (datamuseOf sres))) then ""
         else joinWith ", "
            ((mergeSynonyms (dictionaryOf dres).synonyms (datamuseOf sres)).map
              (synonymItem src tgt (effectiveBases bases) env retries backoff))) := by
  show (if strIsEmpty _ then "" else _) = _
  congr 1
  rw [show (mergeSynonyms (dictionaryOf dres).synonyms (datamuseOf sres)).zip
        ((mergeSynonyms (dictionaryOf dres).synonyms (datamuseOf sres)).map
          (fun s => translate_text s src tgt (effectiveBases bases) (env s) retries backoff))
      = (mergeSynonyms (dictionaryOf dres).synonyms (datamuseOf sres)).map
          (fun s => (s, translate_text s src tgt (effectiveBases bases) (env s)
            retries backoff)) from by
    simpa using List.zip_map' id
      (fun s => translate_text s src tgt (effectiveBases bases) (env s) retries backoff)
      (mergeSynonyms (dictionaryOf dres).synonyms (datamuseOf sres))]
  rw [List.map_map]
  rfl

theorem joinWith_comma_blank :
    ∀ S : List String, strIsEmpty (joinWith ", " S) = true → S = [] ∨ S = [""] := by
  intro S h
  match S with
  | [] => exact Or.inl rfl
  | [x] =>
      have hx : x = "" := (strIsEmpty_iff x).mp (by simpa [joinWith] using h)
      exact Or.inr (by rw [hx])
  | x :: y :: ys =>
      exfalso
      have h' : x ++ ", " ++ joinWith ", " (y :: ys) = "" :=
        (strIsEmpty_iff _).mp (by simpa [joinWith] using h)
      have hlen := congrArg String.length h'
      have hc : (", " : String).length = 2 := rfl
      have he : ("" : String).length = 0 := rfl
      simp only [String.length_append, hc, he] at hlen
      omega

/-- C5 counterexample: on an entry whose first meaning carries only an
empty-text definition and whose second meaning carries the definition
"x", the selection the claim describes picks the second meaning (whose
first non-empty definition text is "x"), but the code returns `Ok` with
no definition text at all — it selected the first meaning because its
definitions list is non-empty. -/
theorem fetch_dictionary_meaning_selection_counterexample :
    specSelectMeaning ceEntry.meanings = some ceMeaningRealText ∧
    ceMeaningRealText.definitions.findSome?
      (fun d => if strIsEmpty d.definition then none else some d.definition)
      = some "x" ∧
    (fetch_dictionary_entry "weird" (Except.ok [ceEntry])).map (fun d => d.definition)
      = Except.ok none := by decide

/-- C5 amended: the dictionary fetch selects the first meaning whose
definitions list is non-empty (regardless of the definition texts),
fails only when every meaning has an empty definitions list, and the
definition text is then the first non-empty definition string of that
meaning, in list order (possibly absent). -/
theorem fetch_dictionary_meaning_selection_amended (term : String)
    (entry : DictionaryEntry) (rest : List DictionaryEntry) :
    (entry.meanings.find? (fun m => !m.definitions.isEmpty) = none →
      fetch_dictionary_entry term (Except.ok (entry :: rest))
        = Except.error (.noDefinition term)) ∧
    (∀ m, entry.meanings.find? (fun m => !m.definitions.isEmpty) = some m →
      (fetch_dictionary_entry term (Except.ok (entry :: rest))).map
          (fun d => d.definition)
        = Except.ok (m.definitions.findSome?
            (fun d => if strIsEmpty d.definition then none else some d.definition))) := by
  constructor
  · intro h
    simp [fetch_dictionary_entry, h]
  · intro m h
    simp [fetch_dictionary_entry, h, Except.map]

/-- C5 amended witness: on the counterexample entry, the code selects
the first meaning (non-empty definitions list) and finds no non-empty
definition text in it. -/
theorem fetch_dictionary_meaning_selection_amended_witness :
    (fetch_dictionary_entry "weird" (Except.ok [ceEntry])).map (fun d => d.definition)
      = Except.ok (ceMeaningEmptyText.definitions.findSome?
          (fun d => if strIsEmpty d.definition then none else some d.definition)) :=
  (fetch_dictionary_meaning_selection_amended "weird" ceEntry []).2
    ceMeaningEmptyText (by decide)

/-- C7: for a non-empty merged synonym sequence, the card's translated
synonyms are the per-position items — each synonym's translation, or the
synonym itself when that translation is blank or failed — joined with
", " in the original merged order (the `join_all` results are re-paired
with the synonyms by position). -/
theorem build_card_synonym_pairing (term src tgt : String) (bases : List String)
    (retries backoff : Nat) (dres : Except DictErr DictionaryData)
    (sres : Except DictErr (List String))
    (env : String → String → Nat → LingvaOutcome)
    (hne : mergeSynonyms (dictionaryOf dres).synonyms (datamuseOf sres) ≠ []) :
    (build_card term src tgt bases retries backoff dres sres env).translation_synonyms
      = joinWith ", "
          ((mergeSynonyms (dictionaryOf dres).synonyms (datamuseOf sres)).map
            (synonymItem src tgt (effectiveBases bases) env retries backoff)) := by
  rw [build_card_translation_synonyms]
  by_cases hj : strIsEmpty (joinWith ", "
      (mergeSynonyms (dictionaryOf dres).synonyms (datamuseOf sres))) = true
  · rcases joinWith_comma_blank _ hj with h | h
    · exact absurd h hne
    · rw [if_pos hj, h]
      rfl
  · rw [if_neg hj]

/-- C7 witness: with dictionary synonym "glad", service synonym
"cheerful", and every translation answering "x", the joined field equals
the positional item map over the merged sequence. -/
theorem build_card_synonym_pairing_witness :
    (build_card "happy" "en" "es" [] 0 0
        (Except.ok ⟨none, none, none, none, ["glad"]⟩) (Except.ok ["cheerful"])
        (fun _ _ _ => .success "x")).translation_synonyms
      = joinWith ", "
          ((mergeSynonyms (dictionaryOf (Except.ok ⟨none, none, none, none, ["glad"]⟩)).synonyms
            (datamuseOf (Except.ok ["cheerful"]))).map
            (synonymItem "en" "es" (effectiveBases []) (fun _ _ _ => .success "x") 0 0)) :=
  build_card_synonym_pairing "happy" "en" "es" [] 0 0
    (Except.ok ⟨none, none, none, none, ["glad"]⟩) (Except.ok ["cheerful"])
    (fun _ _ _ => .success "x") (by decide)

/-- C8: when the term's translation is blank or an error, the heading is
the original term unchanged; when the definition translation is blank or
an error, the usage falls back to the definition text (the dictionary
definition, or the generated placeholder when there was none). -/
theorem build_card_heading_usage_fallback (term src tgt : String) (bases : List String)
    (retries backoff : Nat) (dres : Except DictErr DictionaryData)
    (sres : Except DictErr (List String))
    (env : String → String → Nat → LingvaOutcome) :
    (∀ v, (translate_text term src tgt (effectiveBases bases) (env term)
          retries backoff).result = Except.ok v → isBlank v = true →
      (build_card term src tgt bases retries backoff dres sres env).translation_heading
        = term) ∧
    (∀ e, (translate_text term src tgt (effectiveBases bases) (env term)
          retries backoff).result = Except.error e →
      (build_card term src tgt bases retries backoff dres sres env).translation_heading
        = term) ∧
    (∀ v, (translate_text (definitionTextOf term dres) src tgt (effectiveBases bases)
          (env (definitionTextOf term dres)) retries backoff).result = Except.ok v →
        isBlank v = true →
      (build_card term src tgt bases retries backoff dres sres env).translation_usage
        = definitionTextOf term dres) ∧
    (∀ e, (translate_text (definitionTextOf term dres) src tgt (effectiveBases bases)
          (env (definitionTextOf term dres)) retries backoff).result = Except.error e →
      (build_card term src tgt bases retries backoff dres sres env).translation_usage
        = definitionTextOf term dres) := by
  refine ⟨?_, ?_, ?_, ?_⟩
  · intro v hv hb
    rw [build_card_translation_heading, hv]
    simp [translateOrFallback, hb]
  · intro e he
    rw [build_card_translation_heading, he]
    simp [translateOrFallback]
  · intro v hv hb
    rw [build_card_translation_usage, hv]
    simp [translateOrFallback, hb]
  · intro e he
    rw [build_card_translation_usage, he]
    simp [translateOrFallback]

/-- C8 witness: with every mirror rate-limiting and `maxRetries = 0`,
the heading is the original term and the usage is the placeholder
definition text. -/
theorem build_card_heading_usage_fallback_witness :
    (build_card "happy" "en" "es" [] 0 0 (Except.error .requestFail)
        (Except.error .requestFail) (fun _ _ _ => .rateLimited)).translation_heading
      = "happy" ∧
    (build_card "happy" "en" "es" [] 0 0 (Except.error .requestFail)
        (Except.error .requestFail) (fun _ _ _ => .rateLimited)).translation_usage
      = definitionTextOf "happy" (Except.error .requestFail) :=
  ⟨(build_card_heading_usage_fallback "happy" "en" "es" [] 0 0
      (Except.error .requestFail) (Except.error .requestFail)
      (fun _ _ _ => .rateLimited)).1 "" (by decide) (by decide),
   (build_card_heading_usage_fallback "happy" "en" "es" [] 0 0
      (Except.error .requestFail) (Except.error .requestFail)
      (fun _ _ _ => .rateLimited)).2.2.1 "" (by decide) (by decide)⟩

/-- C9: whitespace-only text is treated exactly like empty text
everywhere: blank input short-circuits `translate_text` to `Ok("")` with
no request issued; a mirror returning a blank `Ok` makes the mirror loop
proceed to the next mirror; the orchestrator's fallback keeps the
fallback text for any blank `Ok` value, not only the empty string, and
each of the card's three translated fields is computed through exactly
that fallback. -/
theorem gateway_blank_uniform (text src tgt : String) (bases : List String)
    (env : String → Nat → LingvaOutcome) (retries backoff : Nat)
    (term : String) (dres : Except DictErr DictionaryData)
    (sres : Except DictErr (List String))
    (benv : String → String → Nat → LingvaOutcome) :
    (isBlank text = true →
      translate_text text src tgt bases env retries backoff = ⟨Except.ok "", 0⟩) ∧
    (∀ b rest r,
      (translate_with_base text src tgt b (env b) retries backoff).result = Except.ok r →
      isBlank r = true →
      (translateLoop text src tgt env retries backoff (b :: rest)).result
        = (translateLoop text src tgt env retries backoff rest).result) ∧
    (∀ v fb, isBlank v = true → translateOrFallback (Except.ok v) fb = fb) ∧
    ((build_card term src tgt bases retries backoff dres sres benv).translation_heading
        = translateOrFallback (translate_text term src tgt (effectiveBases bases)
            (benv term) retries backoff).result term ∧
     (build_card term src tgt bases retries backoff dres sres benv).translation_usage
        = translateOrFallback (translate_text (definitionTextOf term dres) src tgt
            (effectiveBases bases) (benv (definitionTextOf term dres))
            retries backoff).result (definitionTextOf term dres) ∧
     ∀ s, synonymItem src tgt (effectiveBases bases) benv retries backoff s
        = translateOrFallback (translate_text s src tgt (effectiveBases bases)
            (benv s) retries backoff).result s) := by
  refine ⟨?_, ?_, ?_, rfl, rfl, fun s => rfl⟩
  · intro h
    simp [translate_text, h]
  · intro b rest r hok hb
    simp only [translateLoop]
    simp [hok, hb]
  · intro v fb h
    simp [translateOrFallback, h]

/-- C9 witness: whitespace-only input issues no request; a mirror
answering the whitespace-only translation " " is skipped; the fallback
keeps the original for the whitespace-only value " ". -/
theorem gateway_blank_uniform_witness :
    translate_text "   " "en" "es" [] (fun _ _ => .success "feliz") 2 500
      = ⟨Except.ok "", 0⟩ ∧
    (translateLoop "happy" "en" "es" (fun _ _ => .success " ") 0 0 ["m1"]).result
      = (translateLoop "happy" "en" "es" (fun _ _ => .success " ") 0 0 []).result ∧
    translateOrFallback (Except.ok " ") "happy" = "happy" :=
  ⟨(gateway_blank_uniform "   " "en" "es" [] (fun _ _ => .success "feliz") 2 500
      "t" (Except.ok default) (Except.ok []) (fun _ _ _ => .transport)).1 (by decide),
   (gateway_blank_uniform "happy" "en" "es" ["m1"] (fun _ _ => .success " ") 0 0
      "t" (Except.ok default) (Except.ok []) (fun _ _ _ => .transport)).2.1
     "m1" [] " " (by decide) (by decide),
   (gateway_blank_uniform "x" "en" "es" [] (fun _ _ => .transport) 0 0
      "t" (Except.ok default) (Except.ok []) (fun _ _ _ => .transport)).2.2.1
     " " "happy" (by decide)⟩

theorem strContains_sandwich (p suffix t : String) :
    strContains (p ++ t ++ suffix) t = true := by
  simp only [strContains, String.data_append, decide_eq_true_eq]
  exact List.infix_append _ _ _

/-- C10 counterexample: with the empty term and a failed dictionary
fetch, the example sentence is the generated placeholder (no
dictionary-supplied example exists) and the highlight is nevertheless
empty — so an empty highlight does not imply a dictionary-supplied
example lacking the term. -/
theorem highlight_empty_term_counterexample :
    (build_card "" "en" "es" [] 0 0 (Except.error .requestFail)
        (Except.error .requestFail)
        (fun _ _ _ => .transport)).exampleSentence.highlight = "" ∧
    (dictionaryOf (Except.error .requestFail)).example' = none := by decide

/-- C10 amended: when the dictionary supplies no example, the placeholder
contains the term verbatim and the highlight equals the term; the
highlight can be empty only when the term is empty or a
dictionary-supplied example does not contain the term as a substring. -/
theorem highlight_placeholder_amended (term src tgt : String) (bases : List String)
    (retries backoff : Nat) (dres : Except DictErr DictionaryData)
    (sres : Except DictErr (List String))
    (env : String → String → Nat → LingvaOutcome) :
    ((dictionaryOf dres).example' = none →
      (build_card term src tgt bases retries backoff dres sres env).exampleSentence
        = ⟨"This sentence uses the word " ++ term ++ ".", term⟩) ∧
    ((build_card term src tgt bases retries backoff dres sres env).exampleSentence.highlight
        = "" →
      term = "" ∨ ∃ e, (dictionaryOf dres).example' = some e ∧
        strContains e term = false) := by
  constructor
  · intro h
    have hs : exampleSentenceOf term dres
        = "This sentence uses the word " ++ term ++ "." := by
      simp [exampleSentenceOf, h]
    rw [build_card_example_sentence, hs, strContains_sandwich]
    simp
  · intro h
    rw [build_card_example_sentence] at h
    simp only at h
    cases hex : (dictionaryOf dres).example' with
    | none =>
        left
        have hs : exampleSentenceOf term dres
            = "This sentence uses the word " ++ term ++ "." := by
          simp [exampleSentenceOf, hex]
        rw [hs, strContains_sandwich, if_pos rfl] at h
        exact h
    | some e =>
        have hs : exampleSentenceOf term dres = e := by
          simp [exampleSentenceOf, hex]
        rw [hs] at h
        by_cases hc : strContains e term = true
        · left
          rw [if_pos hc] at h
          exact h
        · right
          exact ⟨e, rfl, by simpa using hc⟩

/-- C10 amended witness: with term "word" and a failed dictionary fetch
the placeholder example carries the term and the highlight equals it;
with the empty term the empty-highlight hypothesis is discharged and the
left disjunct holds. -/
theorem highlight_placeholder_amended_witness :
    (build_card "word" "en" "es" [] 0 0 (Except.error .requestFail)
        (Except.ok []) (fun _ _ _ => .transport)).exampleSentence
      = ⟨"This sentence uses the word " ++ "word" ++ ".", "word"⟩ ∧
    (("" : String) = "" ∨ ∃ e,
      (dictionaryOf (Except.error DictErr.requestFail)).example' = some e ∧
      strContains e "" = false) :=
  ⟨(highlight_placeholder_amended "word" "en" "es" [] 0 0 (Except.error .requestFail)
      (Except.ok []) (fun _ _ _ => .transport)).1 (by decide),
   (highlight_placeholder_amended "" "en" "es" [] 0 0 (Except.error .requestFail)
      (Except.ok []) (fun _ _ _ => .transport)).2 (by decide)⟩

end Notaforge
